import Mathlib

/-!
Shallow embedding of `conda/cli/main.py` (the top-level CLI dispatch module).

The module's observable behaviour is modelled as explicit state passing:

* `St` holds the process-wide mutable state the module touches: the memoized
  parser (`PARSER` global), the logging subsystem's state (initialized flag,
  per-logger levels, verbosity setting), the `PATH` environment variable, and
  an event trace recording the order of the module's side-effecting calls.
* `Env` packages the external collaborators (`conda_argparse.generate_parser`,
  `parse_args`, `context.__init__`, `do_call`, `activate.main`,
  `ExceptionHandler.handle_exception`, platform flag, `_Activator._get_path_dirs`)
  as pure functions; collaborators that may raise return `Except Exc _`.
* Python exceptions are modelled by `Except`: an exception propagating out of a
  statement is an `Except.error` carrying the exception and the state at that
  point.
-/

namespace CondaCLI

/-- Models `logging.CRITICAL` (= 50 in the Python logging module). -/
def CRITICAL : Nat := 50

/-- Models `logging.INFO` (= 20 in the Python logging module). -/
def INFO : Nat := 20

/-- Abstract stand-in for the argparse parser object built by
`conda_argparse.generate_parser()`. -/
abbrev Grammar := Nat

/-- Abstract stand-in for the namespace object returned by `p.parse_args`. -/
abbrev ParsedArgs := Nat

/-- The slice of the global `context` singleton this module reads:
`context.json`, `context.verbosity`, and `context.root_prefix`
(field `condaRoot` here). -/
structure Context where
  json : Bool
  verbosity : Nat
  condaRoot : String
deriving DecidableEq

/-- An abstract Python exception value (an instance of `Exception`). -/
inductive Exc
  | mk (msg : String)
deriving DecidableEq

/-- A Python value returned by `do_call`: an `int`, `None`, or anything else. -/
inductive RetVal
  | int (i : Int)
  | noneVal
  | other (tag : String)
deriving DecidableEq

/-- Side-effecting calls the module makes, in program order. -/
inductive Event
  | initStdStreamEncoding
  | activatorMainEv
  | legacyActivateEv
  | initializeLogging
  | silenceJsonLoggers
  | setVerbosityEv
  | handleExceptionEv
  | importContext
  | pathAugment
  | buildGrammar
  | parseArgsEv
  | initContext
  | postParseHookEv
  | doCallEv
deriving DecidableEq

/-- External collaborators of `conda/cli/main.py`, as pure functions.
Collaborators that can raise return `Except Exc _`. -/
structure Env where
  sysArgv : List String
  buildParser : Grammar
  parseArgs : Grammar → List String → Except Exc ParsedArgs
  contextFromArgs : ParsedArgs → Context
  doCall : ParsedArgs → Grammar → Except Exc RetVal
  activatorMain : Except Exc Int
  legacyActivate : Except Exc Unit
  handleException : Exc → Int
  isWin32 : Bool
  pathDirs : String → String
  condaRoot0 : String
  hasPostParseHook : Bool

/-- Process-wide state touched by the module. -/
structure St where
  parserCache : Option Grammar
  loggingInitialized : Bool
  loggerLevels : List (String × Nat)
  verbositySetting : Option Nat
  envPath : String
  trace : List Event
deriving DecidableEq

/-- State at interpreter start: `PARSER is None`, logging untouched,
no logger level overrides, an arbitrary initial `PATH`. -/
def St.init : St :=
  { parserCache := none
    loggingInitialized := false
    loggerLevels := []
    verbositySetting := none
    envPath := "C:\\bin"
    trace := [] }

/-- `logger.setLevel(lvl)`: record an override (later entries shadow earlier). -/
def setLevel (ls : List (String × Nat)) (name : String) (lvl : Nat) :
    List (String × Nat) :=
  (name, lvl) :: ls

/-- The effective level of a named logger (0 = NOTSET when never set). -/
def getLevel (ls : List (String × Nat)) (name : String) : Nat :=
  match ls.find? (fun p => decide (p.1 = name)) with
  | some p => p.2
  | none => 0

/-- A record of severity `sev` on logger `name` passes the logger's level
check (`levelno >= logger.level` in Python logging). -/
def emitted (s : St) (name : String) (sev : Nat) : Bool :=
  decide (getLevel s.loggerLevels name ≤ sev)

/-- The three output-stream loggers silenced in json mode, in source order. -/
def jsonSilencedLoggers : List String :=
  ["conda.stdout.verbose", "conda.stdoutlog", "conda.stderrlog"]

/-- Models `init_loggers(context=None)`:
`initialize_logging()`, then if `context and context.json` silence the three
output-stream loggers at `CRITICAL + 1`, then if `context and context.verbosity`
call `set_verbosity(context.verbosity)`. -/
def init_loggers (ctx : Option Context) (s : St) : St :=
  let s1 := { s with loggingInitialized := true
                     trace := s.trace ++ [Event.initializeLogging] }
  let s2 :=
    match ctx with
    | some c =>
        if c.json then
          { s1 with
            loggerLevels :=
              jsonSilencedLoggers.foldl
                (fun ls n => setLevel ls n (CRITICAL + 1)) s1.loggerLevels
            trace := s1.trace ++ [Event.silenceJsonLoggers] }
        else s1
    | none => s1
  match ctx with
  | some c =>
      if c.verbosity ≠ 0 then
        { s2 with verbositySetting := some c.verbosity
                  trace := s2.trace ++ [Event.setVerbosityEv] }
      else s2
  | none => s2

/-- Models `generate_parser()` from `conda/cli/main.py`: return the cached
`PARSER` if set, otherwise build it, cache it, and return it. (Renamed from
the source's snake-case spelling.) -/
def generateParser (env : Env) (s : St) : Grammar × St :=
  match s.parserCache with
  | some p => (p, s)
  | none =>
      (env.buildParser,
       { s with parserCache := some env.buildParser
                trace := s.trace ++ [Event.buildGrammar] })

/-- Models `_main(*args)`: append `-h` when only the program name is present,
build/fetch the parser, parse, reinitialize the `context` singleton, run
`init_loggers(context)`, run the optional post-parse hook, call `do_call`,
and return its result when it is an `int`. -/
def _main (env : Env) (args0 : List String) (s0 : St) :
    Except (Exc × St) (Option Int × St) :=
  let args := if args0.length = 1 then args0 ++ ["-h"] else args0
  let ps := generateParser env s0
  let s1 := { ps.2 with trace := ps.2.trace ++ [Event.parseArgsEv] }
  match env.parseArgs ps.1 (args.drop 1) with
  | Except.error e => Except.error (e, s1)
  | Except.ok pa =>
      let ctx := env.contextFromArgs pa
      let s2 := { s1 with trace := s1.trace ++ [Event.importContext, Event.initContext] }
      let s3 := init_loggers (some ctx) s2
      let s4 :=
        if env.hasPostParseHook then
          { s3 with trace := s3.trace ++ [Event.postParseHookEv] }
        else s3
      let s5 := { s4 with trace := s4.trace ++ [Event.doCallEv] }
      match env.doCall pa ps.1 with
      | Except.error e => Except.error (e, s5)
      | Except.ok rv =>
          match rv with
          | RetVal.int i => Except.ok (some i, s5)
          | _ => Except.ok (none, s5)

/-- Models `conda_exception_handler(_main, *args)`: run `_main`, and convert
any escaping exception into the classification facility's exit code. -/
def conda_exception_handler (env : Env) (args : List String) (s : St) :
    Option Int × St :=
  match _main env args s with
  | Except.ok r => r
  | Except.error (e, s') =>
      (some (env.handleException e),
       { s' with trace := s'.trace ++ [Event.handleExceptionEv] })

/-- The tail of `main`: on win32, import the context singleton and prepend
`_Activator._get_path_dirs(context.root_prefix)` to `PATH`; then run `_main`
under `conda_exception_handler`. -/
def normalPath (env : Env) (args : List String) (s : St) : Option Int × St :=
  let s1 :=
    if env.isWin32 then
      { s with envPath := env.pathDirs env.condaRoot0 ++ s.envPath
               trace := s.trace ++ [Event.importContext, Event.pathAugment] }
    else s
  conda_exception_handler env args s1

/-- `c.isWhitespace`, the character class stripped by `str.strip()`. -/
def isWs (c : Char) : Bool := c.isWhitespace

/-- Strip leading and trailing whitespace characters from a character list. -/
def stripChars (l : List Char) : List Char :=
  ((l.dropWhile isWs).reverse.dropWhile isWs).reverse

/-- Models Python's `s.strip()`. -/
def pyStrip (s : String) : String := String.mk (stripChars s.toList)

/-- Models Python's `s.startswith(pre)`. -/
def startsWithTok (s pre : String) : Bool :=
  List.isPrefixOf pre.toList s.toList

/-- `ensure_text_type`: the identity on tokens that are already text. -/
def ensureTextType (s : String) : String := s

/-- Models `main(*args)`: stream-encoding setup, `sys.argv` fallback, text
coercion, the two stripped-prefix fast paths with their own exception
boundary, and the normal path. -/
def condaMain (env : Env) (args0 : List String) (s0 : St) : Option Int × St :=
  let s := { s0 with trace := s0.trace ++ [Event.initStdStreamEncoding] }
  let args1 := if args0.isEmpty then env.sysArgv else args0
  let args := args1.map ensureTextType
  match args with
  | prog :: tok :: rest =>
      let argv1 := pyStrip tok
      if startsWithTok argv1 "shell." then
        let s1 := { s with trace := s.trace ++ [Event.activatorMainEv] }
        match env.activatorMain with
        | Except.ok code => (some code, s1)
        | Except.error e =>
            let s2 := init_loggers none s1
            (some (env.handleException e),
             { s2 with trace := s2.trace ++ [Event.handleExceptionEv] })
      else if startsWithTok argv1 ".." then
        let s1 := { s with trace := s.trace ++ [Event.legacyActivateEv] }
        match env.legacyActivate with
        | Except.ok _ => (none, s1)
        | Except.error e =>
            let s2 := init_loggers none s1
            (some (env.handleException e),
             { s2 with trace := s2.trace ++ [Event.handleExceptionEv] })
      else
        normalPath env (prog :: tok :: rest) s
  | _ => normalPath env args s

/-- Models `sys.exit(main())`: `None` exits with status 0, an `int` with
that status. -/
def sysExitCode (r : Option Int) : Int := r.getD 0

/-- One whole process invocation: `sys.exit(main())`. -/
def condaRun (env : Env) (args0 : List String) (s0 : St) : Int × St :=
  let r := condaMain env args0 s0
  (sysExitCode r.1, r.2)

/-- The state a (possibly failing) `_main` run ends in. -/
def exceptSt : Except (Exc × St) (Option Int × St) → St
  | Except.error p => p.2
  | Except.ok p => p.2

/-- Index of the first occurrence of an event in a trace. -/
def firstIdx (tr : List Event) (e : Event) : Option Nat :=
  tr.findIdx? (fun x => decide (x = e))

/-- Both events occur, and the first occurrence of `e1` strictly precedes the
first occurrence of `e2`. -/
def eventBefore (tr : List Event) (e1 e2 : Event) : Bool :=
  match firstIdx tr e1, firstIdx tr e2 with
  | some i, some j => decide (i < j)
  | _, _ => false

/-- The event occurs somewhere in the trace. -/
def occursEv (tr : List Event) (e : Event) : Bool :=
  tr.any (fun x => decide (x = e))

/-- A token routed to one of the two fast paths after stripping. -/
def fastPathTok (tok : String) : Bool :=
  startsWithTok (pyStrip tok) "shell." || startsWithTok (pyStrip tok) ".."

/-- A plain context: no json mode, verbosity 0. -/
def ctxPlain : Context :=
  { json := false, verbosity := 0, condaRoot := "C:\\conda" }

/-- A json-mode context with nonzero verbosity. -/
def ctxJson : Context :=
  { json := true, verbosity := 2, condaRoot := "C:\\conda" }

/-- A concrete collaborator environment where every collaborator succeeds. -/
def envA : Env :=
  { sysArgv := ["conda"]
    buildParser := 0
    parseArgs := fun _ toks => Except.ok toks.length
    contextFromArgs := fun _ => ctxPlain
    doCall := fun _ _ => Except.ok (RetVal.int 0)
    activatorMain := Except.ok 7
    legacyActivate := Except.ok ()
    handleException := fun _ => 1
    isWin32 := false
    pathDirs := fun r => r ++ "\\Scripts;"
    condaRoot0 := "C:\\conda"
    hasPostParseHook := false }

/-- A concrete environment on win32, json mode, whose fast-path collaborators
raise and whose subcommand returns `None`. -/
def envB : Env :=
  { envA with
    isWin32 := true
    contextFromArgs := fun _ => ctxJson
    activatorMain := Except.error (Exc.mk "activator boom")
    legacyActivate := Except.error (Exc.mk "legacy boom")
    handleException := fun _ => 42
    doCall := fun _ _ => Except.ok RetVal.noneVal }

/-- The events `_main` contributes on a successful-parse run, in order. -/
def normalTrace (env : Env) (pa : ParsedArgs) : List Event :=
  [Event.buildGrammar, Event.parseArgsEv, Event.importContext,
   Event.initContext, Event.initializeLogging]
  ++ (if (env.contextFromArgs pa).json then [Event.silenceJsonLoggers] else [])
  ++ (if (env.contextFromArgs pa).verbosity ≠ 0 then [Event.setVerbosityEv] else [])
  ++ (if env.hasPostParseHook then [Event.postParseHookEv] else [])
  ++ [Event.doCallEv]

/-- The state a normal-path invocation from `St.init` ends in (before the
outer boundary's exception report, whose extra trace event is added by
`conda_exception_handler` when `do_call` raises). -/
def normalEndSt (env : Env) (pa : ParsedArgs) : St :=
  { parserCache := some env.buildParser
    loggingInitialized := true
    loggerLevels :=
      if (env.contextFromArgs pa).json then
        [("conda.stderrlog", CRITICAL + 1), ("conda.stdoutlog", CRITICAL + 1),
         ("conda.stdout.verbose", CRITICAL + 1)]
      else []
    verbositySetting :=
      if (env.contextFromArgs pa).verbosity ≠ 0
        then some (env.contextFromArgs pa).verbosity else none
    envPath :=
      if env.isWin32 then env.pathDirs env.condaRoot0 ++ St.init.envPath
      else St.init.envPath
    trace :=
      [Event.initStdStreamEncoding]
      ++ (if env.isWin32 then [Event.importContext, Event.pathAugment] else [])
      ++ normalTrace env pa }

theorem dropWhile_head_not {α : Type} (p : α → Bool) (l : List α) {a : α}
    {t : List α} (h : l.dropWhile p = a :: t) : p a = false := by
  induction l with
  | nil => simp [List.dropWhile] at h
  | cons b l ih =>
      rw [List.dropWhile_cons] at h
      by_cases hb : p b = true
      · rw [if_pos hb] at h
        exact ih h
      · rw [if_neg hb] at h
        cases h
        simpa using hb

theorem dropWhile_idem {α : Type} (p : α → Bool) (l : List α) :
    (l.dropWhile p).dropWhile p = l.dropWhile p := by
  cases h : l.dropWhile p with
  | nil => simp
  | cons a t =>
      rw [List.dropWhile_cons, dropWhile_head_not p l h]
      simp

theorem stripChars_idem (l : List Char) :
    stripChars (stripChars l) = stripChars l := by
  unfold stripChars
  have h1 : (((l.dropWhile isWs).reverse.dropWhile isWs).reverse.reverse).dropWhile isWs
      = ((l.dropWhile isWs).reverse.dropWhile isWs).reverse.reverse := by
    rw [List.reverse_reverse]
    exact dropWhile_idem isWs _
  have h2 : (((l.dropWhile isWs).reverse.dropWhile isWs).reverse).dropWhile isWs
      = ((l.dropWhile isWs).reverse.dropWhile isWs).reverse := by
    cases hrv : ((l.dropWhile isWs).reverse.dropWhile isWs).reverse with
    | nil => simp
    | cons b u =>
        have hsplit :
            (l.dropWhile isWs).reverse.takeWhile isWs
              ++ (l.dropWhile isWs).reverse.dropWhile isWs
            = (l.dropWhile isWs).reverse :=
          List.takeWhile_append_dropWhile ..
        have hm2 : l.dropWhile isWs
            = ((l.dropWhile isWs).reverse.dropWhile isWs).reverse
              ++ ((l.dropWhile isWs).reverse.takeWhile isWs).reverse := by
          have := congrArg List.reverse hsplit
          rw [List.reverse_append, List.reverse_reverse] at this
          exact this.symm
        rw [hrv, List.cons_append] at hm2
        have hb : isWs b = false := dropWhile_head_not isWs l hm2
        rw [List.dropWhile_cons, hb]
        simp
  rw [h2, List.reverse_reverse, dropWhile_idem]

theorem pyStrip_idem (s : String) : pyStrip (pyStrip s) = pyStrip s :=
  congrArg String.mk (stripChars_idem s.toList)

theorem map_ensureTextType (l : List String) : l.map ensureTextType = l := by
  induction l with
  | nil => rfl
  | cons a t ih => simpa [ensureTextType] using ih

theorem condaMain_normal (env : Env) (prog tok : String) (rest : List String)
    (pa : ParsedArgs)
    (h1 : startsWithTok (pyStrip tok) "shell." = false)
    (h2 : startsWithTok (pyStrip tok) ".." = false)
    (hp : env.parseArgs env.buildParser (tok :: rest) = Except.ok pa) :
    condaMain env (prog :: tok :: rest) St.init =
      match env.doCall pa env.buildParser with
      | Except.error e =>
          (some (env.handleException e),
           { normalEndSt env pa with
             trace := (normalEndSt env pa).trace ++ [Event.handleExceptionEv] })
      | Except.ok (RetVal.int i) => (some i, normalEndSt env pa)
      | Except.ok _ => (none, normalEndSt env pa) := by
  cases hw : env.isWin32 <;>
    cases hj : (env.contextFromArgs pa).json <;>
      cases hh : env.hasPostParseHook <;>
        by_cases hv : (env.contextFromArgs pa).verbosity = 0 <;>
          rcases hd : env.doCall pa env.buildParser with e | rv <;>
            (try cases rv) <;>
              simp [condaMain, map_ensureTextType, ensureTextType, h1, h2,
                normalPath, conda_exception_handler, _main, generateParser,
                init_loggers, St.init, normalEndSt, normalTrace,
                jsonSilencedLoggers, setLevel, hp, hw, hj, hh, hv, hd,
                List.append_assoc]

/-- C2 (counterexample): on the `"shell."` fast path the dispatcher does NOT
initialize logging before delegating, contrary to the claim: on
`["conda", "shell.bash", "hook"]` the delegate runs and its result is
returned, yet no logging-initialization event ever occurs and the logging
subsystem is left untouched. -/
theorem shellFastPath_claim_refuted :
    (condaMain envA ["conda", "shell.bash", "hook"] St.init).1 = some 7 ∧
    occursEv (condaMain envA ["conda", "shell.bash", "hook"] St.init).2.trace
      Event.initializeLogging = false ∧
    eventBefore (condaMain envA ["conda", "shell.bash", "hook"] St.init).2.trace
      Event.initializeLogging Event.activatorMainEv = false ∧
    (condaMain envA ["conda", "shell.bash", "hook"] St.init).2.loggingInitialized
      = false := by
  decide

/-- C2 (amended): for every argument vector whose first user token starts with
`"shell."` (after stripping), dispatch performs no initialization at all
before delegating: it delegates directly to the shell-activation collaborator
and returns its result; global-configuration initialization is never invoked,
the grammar is never built, and logging is untouched on the success path. -/
theorem shellFastPath_delegates_only (env : Env) (prog tok : String)
    (rest : List String) (s : St) (c : Int)
    (hs : startsWithTok (pyStrip tok) "shell." = true)
    (ha : env.activatorMain = Except.ok c) :
    condaMain env (prog :: tok :: rest) s =
      (some c,
       { s with trace :=
           s.trace ++ [Event.initStdStreamEncoding, Event.activatorMainEv] }) := by
  simp [condaMain, map_ensureTextType, ensureTextType, hs, ha]

/-- Witness for the amended C2 theorem at a concrete input. -/
theorem shellFastPath_delegates_only_witness :
    condaMain envA ["conda", "shell.bash", "hook"] St.init =
      (some 7,
       { St.init with
         trace := [Event.initStdStreamEncoding, Event.activatorMainEv] }) := by
  have h := shellFastPath_delegates_only envA "conda" "shell.bash" ["hook"]
    St.init 7 (by decide) rfl
  simpa using h

/-- C9: for every argument vector whose first user token starts with `".."`
(and not with `"shell."`) after stripping, dispatch delegates to the legacy
shell-activation collaborator and returns `None` (no explicit exit code);
the grammar is never built and no parse is attempted (the final state differs
from the initial one only by the delegation trace). -/
theorem dotsFastPath_legacy_delegate (env : Env) (prog tok : String)
    (rest : List String) (s : St)
    (h1 : startsWithTok (pyStrip tok) "shell." = false)
    (h2 : startsWithTok (pyStrip tok) ".." = true)
    (hl : env.legacyActivate = Except.ok ()) :
    condaMain env (prog :: tok :: rest) s =
      (none,
       { s with trace :=
           s.trace ++ [Event.initStdStreamEncoding, Event.legacyActivateEv] }) := by
  simp [condaMain, map_ensureTextType, ensureTextType, h1, h2, hl]

/-- Witness for the C9 theorem at a concrete input. -/
theorem dotsFastPath_legacy_delegate_witness :
    condaMain envA ["conda", "..activate"] St.init =
      (none,
       { St.init with
         trace := [Event.initStdStreamEncoding, Event.legacyActivateEv] }) := by
  have h := dotsFastPath_legacy_delegate envA "conda" "..activate" [] St.init
    (by decide) (by decide) rfl
  simpa using h

/-- C4: an exception raised inside either fast-path branch never propagates
out of the dispatcher: logging is initialized, the exception is routed
through the classification-and-report facility, and the dispatcher returns
whatever exit code that facility yields. -/
theorem fastPath_exception_handled (env : Env) (prog tok : String)
    (rest : List String) (e : Exc)
    (h : (startsWithTok (pyStrip tok) "shell." = true
            ∧ env.activatorMain = Except.error e)
       ∨ (startsWithTok (pyStrip tok) "shell." = false
            ∧ startsWithTok (pyStrip tok) ".." = true
            ∧ env.legacyActivate = Except.error e)) :
    (condaMain env (prog :: tok :: rest) St.init).1
        = some (env.handleException e) ∧
    (condaMain env (prog :: tok :: rest) St.init).2.loggingInitialized = true ∧
    eventBefore (condaMain env (prog :: tok :: rest) St.init).2.trace
      Event.initializeLogging Event.handleExceptionEv = true := by
  rcases h with ⟨hs, ha⟩ | ⟨h1, h2, hl⟩
  · simp [condaMain, map_ensureTextType, ensureTextType, init_loggers, St.init,
      hs, ha]
    decide
  · simp [condaMain, map_ensureTextType, ensureTextType, init_loggers, St.init,
      h1, h2, hl]
    decide

/-- Witness for the C4 theorem at a concrete input (the `"shell."` branch). -/
theorem fastPath_exception_handled_witness :
    (condaMain envB ["conda", "shell.zsh"] St.init).1 = some 42 ∧
    (condaMain envB ["conda", "shell.zsh"] St.init).2.loggingInitialized
      = true ∧
    eventBefore (condaMain envB ["conda", "shell.zsh"] St.init).2.trace
      Event.initializeLogging Event.handleExceptionEv = true :=
  fastPath_exception_handled envB "conda" "shell.zsh" []
    (Exc.mk "activator boom") (Or.inl ⟨by decide, rfl⟩)

/-- C10: fast-path classification happens on the whitespace-stripped token:
a second element that begins with `"shell."` or `".."` only after stripping
is dispatched exactly as if it carried no surrounding whitespace. -/
theorem fastPath_token_stripped (env : Env) (prog tok : String)
    (rest : List String) (s : St)
    (h : startsWithTok (pyStrip tok) "shell." = true
       ∨ startsWithTok (pyStrip tok) ".." = true) :
    condaMain env (prog :: tok :: rest) s
      = condaMain env (prog :: pyStrip tok :: rest) s := by
  rcases h with h | h
  · simp [condaMain, map_ensureTextType, ensureTextType, pyStrip_idem, h]
  · cases hb : startsWithTok (pyStrip tok) "shell."
    · simp [condaMain, map_ensureTextType, ensureTextType, pyStrip_idem, h, hb]
    · simp [condaMain, map_ensureTextType, ensureTextType, pyStrip_idem, hb]

/-- Witness for the C10 theorem at a concrete whitespace-wrapped input. -/
theorem fastPath_token_stripped_witness :
    condaMain envA ["conda", "  shell.bash  ", "hook"] St.init
      = condaMain envA ["conda", "shell.bash", "hook"] St.init := by
  have h := fastPath_token_stripped envA "conda" "  shell.bash  " ["hook"]
    St.init (Or.inl (by decide))
  have hst : pyStrip "  shell.bash  " = "shell.bash" := by decide
  rw [h, hst]

/-- C3: the first call to the grammar builder constructs and caches the
grammar; any call on a state with a non-empty cache returns the cached value
with the state unchanged (no rebuild, cache never overwritten); in
particular a second call right after the first returns the identical value
and leaves the state untouched. -/
theorem generateParser_memoized (env : Env) (s : St) :
    (s.parserCache = none →
       generateParser env s =
         (env.buildParser,
          { s with parserCache := some env.buildParser
                   trace := s.trace ++ [Event.buildGrammar] })) ∧
    (∀ p, s.parserCache = some p → generateParser env s = (p, s)) ∧
    generateParser env (generateParser env s).2 =
      ((generateParser env s).1, (generateParser env s).2) := by
  refine ⟨?_, ?_, ?_⟩
  · intro h
    simp [generateParser, h]
  · intro p h
    simp [generateParser, h]
  · cases h : s.parserCache <;> simp [generateParser, h]

/-- Witness for the C3 theorem: first call builds, a primed cache is
returned as-is, and back-to-back calls agree. -/
theorem generateParser_memoized_witness :
    generateParser envA St.init =
      (0, { St.init with parserCache := some 0
                         trace := [Event.buildGrammar] }) ∧
    generateParser envA { St.init with parserCache := some 5 }
      = (5, { St.init with parserCache := some 5 }) ∧
    generateParser envA (generateParser envA St.init).2 =
      ((generateParser envA St.init).1, (generateParser envA St.init).2) := by
  refine ⟨?_, ?_, (generateParser_memoized envA St.init).2.2⟩
  · have h := (generateParser_memoized envA St.init).1 rfl
    simpa using h
  · exact (generateParser_memoized envA _).2.1 5 rfl

/-- C5: dispatching an argument vector holding only the program name is
identical to dispatching the same vector with an explicit `"-h"` help token
appended: the same value and the same final state (hence the same exit code
and output class). -/
theorem emptyArgs_equals_help (env : Env) (prog : String) (s : St) :
    condaMain env [prog] s = condaMain env [prog, "-h"] s := by
  have hs : startsWithTok (pyStrip "-h") "shell." = false := by decide
  have hd : startsWithTok (pyStrip "-h") ".." = false := by decide
  simp [condaMain, map_ensureTextType, ensureTextType, hs, hd, normalPath,
    conda_exception_handler, _main]

/-- C1 (counterexample): on a concrete normal-path invocation both the
configuration-initialization and logging-initialization events occur, but
logging initialization does NOT precede configuration initialization,
refuting the claimed logging-first order. -/
theorem bootstrapOrder_claim_refuted :
    occursEv (condaMain envA ["conda", "info"] St.init).2.trace
      Event.initializeLogging = true ∧
    occursEv (condaMain envA ["conda", "info"] St.init).2.trace
      Event.initContext = true ∧
    eventBefore (condaMain envA ["conda", "info"] St.init).2.trace
      Event.initializeLogging Event.initContext = false := by
  decide

/-- C1 (amended): on the normal (non-fast-path) dispatch path, the bootstrap
runs global-configuration initialization first and logging initialization
second, in that fixed order, with the logging adjustment steps (json
silencing, verbosity setting) following configuration initialization. -/
theorem bootstrapOrder_configThenLogging (env : Env) (prog tok : String)
    (rest : List String) (pa : ParsedArgs)
    (h1 : startsWithTok (pyStrip tok) "shell." = false)
    (h2 : startsWithTok (pyStrip tok) ".." = false)
    (hp : env.parseArgs env.buildParser (tok :: rest) = Except.ok pa) :
    eventBefore (condaMain env (prog :: tok :: rest) St.init).2.trace
        Event.initContext Event.initializeLogging = true ∧
    ((env.contextFromArgs pa).json = true →
      eventBefore (condaMain env (prog :: tok :: rest) St.init).2.trace
        Event.initContext Event.silenceJsonLoggers = true) ∧
    ((env.contextFromArgs pa).verbosity ≠ 0 →
      eventBefore (condaMain env (prog :: tok :: rest) St.init).2.trace
        Event.initContext Event.setVerbosityEv = true) := by
  rw [condaMain_normal env prog tok rest pa h1 h2 hp]
  rcases hd : env.doCall pa env.buildParser with e | rv <;> (try cases rv) <;>
    cases hw : env.isWin32 <;>
      cases hj : (env.contextFromArgs pa).json <;>
        cases hh : env.hasPostParseHook <;>
          by_cases hv : (env.contextFromArgs pa).verbosity = 0 <;>
            simp [hd, hw, hj, hh, hv, normalEndSt, normalTrace] <;> decide

/-- Witness for the amended C1 theorem at a concrete input with json mode and
nonzero verbosity active. -/
theorem bootstrapOrder_configThenLogging_witness :
    eventBefore (condaMain envB ["conda", "install", "numpy"] St.init).2.trace
        Event.initContext Event.initializeLogging = true ∧
    eventBefore (condaMain envB ["conda", "install", "numpy"] St.init).2.trace
        Event.initContext Event.silenceJsonLoggers = true ∧
    eventBefore (condaMain envB ["conda", "install", "numpy"] St.init).2.trace
        Event.initContext Event.setVerbosityEv = true := by
  obtain ⟨a, b, c⟩ := bootstrapOrder_configThenLogging envB "conda" "install"
    ["numpy"] 2 (by decide) (by decide) rfl
  exact ⟨a, b rfl, c (by decide)⟩

/-- C6: on the platform needing executable-search-path augmentation (win32),
every normal-path invocation prepends the activation directories derived
from the configured root prefix to the search-path variable; this happens
after the Global Configuration singleton exists (its import) and before the
subcommand handler is invoked. -/
theorem win32_pathAugment (env : Env) (prog tok : String) (rest : List String)
    (pa : ParsedArgs)
    (hw : env.isWin32 = true)
    (h1 : startsWithTok (pyStrip tok) "shell." = false)
    (h2 : startsWithTok (pyStrip tok) ".." = false)
    (hp : env.parseArgs env.buildParser (tok :: rest) = Except.ok pa) :
    (condaMain env (prog :: tok :: rest) St.init).2.envPath
        = env.pathDirs env.condaRoot0 ++ St.init.envPath ∧
    eventBefore (condaMain env (prog :: tok :: rest) St.init).2.trace
      Event.importContext Event.pathAugment = true ∧
    eventBefore (condaMain env (prog :: tok :: rest) St.init).2.trace
      Event.pathAugment Event.doCallEv = true := by
  rw [condaMain_normal env prog tok rest pa h1 h2 hp]
  rcases hd : env.doCall pa env.buildParser with e | rv <;> (try cases rv) <;>
    cases hj : (env.contextFromArgs pa).json <;>
      cases hh : env.hasPostParseHook <;>
        by_cases hv : (env.contextFromArgs pa).verbosity = 0 <;>
          simp [hd, hw, hj, hh, hv, normalEndSt, normalTrace] <;> decide

/-- Witness for the C6 theorem at a concrete win32 input. -/
theorem win32_pathAugment_witness :
    (condaMain envB ["conda", "list"] St.init).2.envPath
        = envB.pathDirs envB.condaRoot0 ++ St.init.envPath ∧
    eventBefore (condaMain envB ["conda", "list"] St.init).2.trace
      Event.importContext Event.pathAugment = true ∧
    eventBefore (condaMain envB ["conda", "list"] St.init).2.trace
      Event.pathAugment Event.doCallEv = true :=
  win32_pathAugment envB "conda" "list" [] 1 rfl (by decide) (by decide) rfl

/-- C7: the dispatcher returns the subcommand handler's result as the exit
code exactly when it is an integer; any non-integer result (including
`None`) yields `None` from `main`, which the process exit turns into the
implicit success code 0. -/
theorem doCall_result_exitCode (env : Env) (prog tok : String)
    (rest : List String) (pa : ParsedArgs) (rv : RetVal)
    (h1 : startsWithTok (pyStrip tok) "shell." = false)
    (h2 : startsWithTok (pyStrip tok) ".." = false)
    (hp : env.parseArgs env.buildParser (tok :: rest) = Except.ok pa)
    (hd : env.doCall pa env.buildParser = Except.ok rv) :
    (condaMain env (prog :: tok :: rest) St.init).1
        = (match rv with | RetVal.int i => some i | _ => none) ∧
    (condaRun env (prog :: tok :: rest) St.init).1
        = (match rv with | RetVal.int i => i | _ => 0) := by
  have h := condaMain_normal env prog tok rest pa h1 h2 hp
  rw [hd] at h
  cases rv <;> simp [condaRun, sysExitCode, h]

/-- Witness for the C7 theorem at a concrete input whose handler returns
`None`. -/
theorem doCall_result_exitCode_witness :
    (condaMain envB ["conda", "clean"] St.init).1 = none ∧
    (condaRun envB ["conda", "clean"] St.init).1 = 0 :=
  doCall_result_exitCode envB "conda" "clean" [] 1 RetVal.noneVal
    (by decide) (by decide) rfl rfl

/-- C8: whenever the configuration's json field is set, logging
initialization raises the three output-stream loggers' thresholds to
`CRITICAL + 1` (above critical), so an informational record can never pass
their level check; and whenever the verbosity field is set (nonzero), the
verbosity threshold is adjusted to it. -/
theorem jsonLogging_silenced (ctx : Context) (s : St) :
    (ctx.json = true →
      ∀ name ∈ jsonSilencedLoggers,
        getLevel (init_loggers (some ctx) s).loggerLevels name
            = CRITICAL + 1 ∧
        CRITICAL < getLevel (init_loggers (some ctx) s).loggerLevels name ∧
        emitted (init_loggers (some ctx) s) name INFO = false) ∧
    (ctx.verbosity ≠ 0 →
      (init_loggers (some ctx) s).verbositySetting = some ctx.verbosity) := by
  constructor
  · intro hj name hname
    simp only [jsonSilencedLoggers, List.mem_cons, List.not_mem_nil,
      or_false] at hname
    rcases hname with rfl | rfl | rfl <;>
      by_cases hv : ctx.verbosity = 0 <;>
        simp [init_loggers, hj, hv, jsonSilencedLoggers, setLevel, getLevel,
          emitted, CRITICAL, INFO, List.find?]
  · intro hv
    cases hj : ctx.json <;> simp [init_loggers, hj, hv]

/-- Witness for the C8 theorem at a concrete json-mode context. -/
theorem jsonLogging_silenced_witness :
    getLevel (init_loggers (some ctxJson) St.init).loggerLevels
        "conda.stdoutlog" = CRITICAL + 1 ∧
    emitted (init_loggers (some ctxJson) St.init) "conda.stdoutlog" INFO
        = false ∧
    (init_loggers (some ctxJson) St.init).verbositySetting = some 2 := by
  obtain ⟨hj, hv⟩ := jsonLogging_silenced ctxJson St.init
  obtain ⟨a, _, c⟩ := hj rfl "conda.stdoutlog" (by decide)
  exact ⟨a, c, hv (by decide)⟩

end CondaCLI
